import Mathlib

/-
Verification of the collection & normalization layer of the Shameless
sentiment-analysis repository.

The Python sources embedded here:
  Sentiment_Analyser/scraper/collectors/bluesky_collector.py
  Sentiment_Analyser/scraper/collectors/twitter_collector.py
  Sentiment_Analyser/storage/user_db.py
  Sentiment_Analyser/api/main.py  (route-level limit validation, collector init)
  Sentiment_Analyser/config/settings.py  (credential fields)

Raw provider payloads are parsed JSON documents accessed dynamically; we
model them as a JSON value tree together with the small set of Python
operations the collectors use on them (`d[k]`, `d.get(k, default)`,
`k in d`, `x[0]`, `list(x)`, iteration, truthiness, `str.split`).  Each
such operation is total here and returns `Except PyErr _`, with the error
constructor matching the Python exception class that the corresponding
operation raises.
-/

namespace Shameless

/-- Python exception classes that the per-item extraction code can raise. -/
inductive PyErr where
  | typeError
  | attributeError
  | keyError
  | indexError
deriving DecidableEq, Repr

/-- A parsed JSON document (the result of `http_response.json()`), as the
dynamically-typed tree the collectors traverse.  Numbers are integers: the
payload fields the collectors read (`likeCount` etc.) are integral. -/
inductive JValue where
  | null
  | bool (b : Bool)
  | num (n : Int)
  | str (s : String)
  | arr (xs : List JValue)
  | obj (fields : List (String × JValue))

/-- Python truthiness of a JSON value (`if x:`). -/
def pyTruthy : JValue → Bool
  | .null => false
  | .bool b => b
  | .num n => n != 0
  | .str s => s != ""
  | .arr xs => !xs.isEmpty
  | .obj fs => !fs.isEmpty

/-- Whether the first char list is a prefix of the second. -/
def isPrefixChars : List Char → List Char → Bool
  | [], _ => true
  | _ :: _, [] => false
  | a :: as, b :: bs => a = b && isPrefixChars as bs

/-- Whether the first char list occurs inside the second. -/
def charsContain : List Char → List Char → Bool
  | needle, [] => needle.isEmpty
  | needle, c :: rest => isPrefixChars needle (c :: rest) || charsContain needle rest

/-- Substring test, used by Python `needle in s` on strings. -/
def pyStrContainsSub (s needle : String) : Bool :=
  charsContain needle.data s.data

/-- Split a char list on a separator char, keeping empty pieces (the
semantics of Python `s.split('/')`: splitting the empty string yields one
empty piece). -/
def charSplit (sep : Char) : List Char → List (List Char)
  | [] => [[]]
  | c :: rest =>
    let r := charSplit sep rest
    if c = sep then [] :: r
    else
      match r with
      | [] => [[c]]
      | g :: gs => (c :: g) :: gs

/-- Split a char list on whitespace, keeping empty pieces (filtered by the
caller, as Python `s.split()` discards them). -/
def splitWhite : List Char → List (List Char)
  | [] => [[]]
  | c :: rest =>
    let r := splitWhite rest
    if c.isWhitespace then [] :: r
    else
      match r with
      | [] => [[c]]
      | g :: gs => (c :: g) :: gs

/-- Python `==` between a JSON value and a string literal. -/
def isStrEq (v : JValue) (k : String) : Bool :=
  match v with
  | .str t => t == k
  | _ => false

/-- Python `key in v`: key membership for dicts, element membership for
lists, substring test for strings; `TypeError` otherwise. -/
def pyContains (v : JValue) (key : String) : Except PyErr Bool :=
  match v with
  | .obj fs => .ok (fs.any (fun f => f.1 == key))
  | .arr xs => .ok (xs.any (fun x => isStrEq x key))
  | .str s => .ok (pyStrContainsSub s key)
  | _ => .error .typeError

/-- First binding of a key in a JSON object (Python dict lookup). -/
def jlookup : List (String × JValue) → String → Option JValue
  | [], _ => none
  | f :: rest, key => if f.1 = key then some f.2 else jlookup rest key

/-- Python `v.get(key, dflt)`: only dicts have `.get`; anything else
raises `AttributeError`. -/
def pyGet (v : JValue) (key : String) (dflt : JValue) : Except PyErr JValue :=
  match v with
  | .obj fs => .ok ((jlookup fs key).getD dflt)
  | _ => .error .attributeError

/-- Python `v[key]` with a string key: dict lookup (`KeyError` when the key
is absent); indexing a list or string by a string raises `TypeError`. -/
def pyIndex (v : JValue) (key : String) : Except PyErr JValue :=
  match v with
  | .obj fs =>
    match jlookup fs key with
    | some x => .ok x
    | none => .error .keyError
  | _ => .error .typeError

/-- Python `v[0]`: first element of a list or string (`IndexError` when
empty); on a dict, `0` is not among the string keys (`KeyError`);
`TypeError` otherwise (e.g. `None[0]`). -/
def pyIndex0 : JValue → Except PyErr JValue
  | .arr [] => .error .indexError
  | .arr (x :: _) => .ok x
  | .str s =>
    match s.toList with
    | [] => .error .indexError
    | c :: _ => .ok (.str (String.singleton c))
  | .obj _ => .error .keyError
  | _ => .error .typeError

/-- Python iteration (`for x in v`, `list(v)`): elements of a list,
characters of a string, keys of a dict; `TypeError` otherwise. -/
def pyIter (v : JValue) : Except PyErr (List JValue) :=
  match v with
  | .arr xs => .ok xs
  | .str s => .ok (s.toList.map (fun c => .str (String.singleton c)))
  | .obj fs => .ok (fs.map (fun f => .str f.1))
  | _ => .error .typeError

/-- Python `str(v)` as interpolated by an f-string.  Reprs of composite
values are abbreviated (their exact spelling is not load-bearing); what
matters is that every repr is a non-empty string. -/
def pyStr : JValue → String
  | .null => "None"
  | .bool true => "True"
  | .bool false => "False"
  | .num n => toString n
  | .str s => s
  | .arr _ => "[...]"
  | .obj _ => "\x7b...\x7d"

/-- Python `s.split('/')[-1]`: last piece of the `/`-split (`''` splits to
`['']`, so the empty string maps to itself). -/
def pySplitLast (s : String) : String :=
  ((charSplit '/' s.data).map (fun cs => String.mk cs)).getLastD ""

/-- Python `s.split()` with no argument: split on whitespace runs,
discarding empty pieces. -/
def pyWords (s : String) : List String :=
  ((splitWhite s.data).filter (fun g => !g.isEmpty)).map (fun cs => String.mk cs)

/-- `[word[1:] for word in text.split() if word.startswith('#')]`. -/
def hashtagWords (s : String) : List JValue :=
  ((splitWhite s.data).filter (fun g => !g.isEmpty)).filterMap (fun cs =>
    match cs with
    | '#' :: rest => some (JValue.str (String.mk rest))
    | _ => none)

/-- The shared `Tweet` dataclass (scraper/schemas.py).  Python dataclasses
do not validate field types, so every field holds whatever raw value the
parser put there; we therefore type the fields as `JValue`. -/
structure Tweet where
  id : JValue
  content : JValue
  user : JValue
  username : JValue
  date : JValue
  likes : JValue
  retweets : JValue
  replies : JValue
  url : JValue
  hashtags : JValue
  mentions : JValue
  language : JValue

/-! ## AT-Protocol collector: per-item extraction
(bluesky_collector.py, `get_user_posts`, lines 164-211)

The body of the per-item `try:` block, lines 171-203.  Each step is the
Python operation at the corresponding source line; the chain short-circuits
on the first raised exception, which the `except` at line 208 turns into a
skipped item. -/

/-- Lines 183-187: structured `tags` preferred when present and truthy,
else tokenize `text` on `#`-prefixed words when `text` is a string, else
keep the initial `[]`.  (`list(record['tags'])` is Python iteration.) -/
def pyHashtags (record text : JValue) : Except PyErr JValue :=
  match pyContains record "tags" with
  | .error e => .error e
  | .ok false =>
    .ok (match text with
         | .str s => .arr (hashtagWords s)
         | _ => .arr [])
  | .ok true =>
    match pyIndex record "tags" with
    | .error e => .error e
    | .ok tagsVal =>
      if pyTruthy tagsVal then
        match pyIter tagsVal with
        | .error e => .error e
        | .ok xs => .ok (.arr xs)
      else
        .ok (match text with
             | .str s => .arr (hashtagWords s)
             | _ => .arr [])

/-- Line 202: `record.get('langs', [None])[0] if 'langs' in record else
None`.  When `langs` is present its value is indexed directly (the `[None]`
default is dead there), so a null or empty `langs` raises. -/
def pyLangs (record : JValue) : Except PyErr JValue :=
  match pyContains record "langs" with
  | .error e => .error e
  | .ok false => .ok .null
  | .ok true =>
    match pyIndex record "langs" with
    | .error e => .error e
    | .ok v => pyIndex0 v

/-- `v.split('/')` requires a string receiver (`AttributeError` otherwise). -/
def asStr (v : JValue) : Except PyErr String :=
  match v with
  | .str s => .ok s
  | _ => .error .attributeError

/-- Per-item extraction of one raw feed item into a `Tweet`
(bluesky_collector.py lines 171-203).  `author.get('handle', '')` is read
three times in the source (lines 193, 194, 199); being a pure lookup it is
read once here and reused. -/
def extractPost (feed_item_raw : JValue) : Except PyErr Tweet :=
  match pyIndex feed_item_raw "post" with
  | .error e => .error e
  | .ok post_data =>
  match pyGet post_data "record" (.obj []) with
  | .error e => .error e
  | .ok record =>
  match pyGet post_data "author" (.obj []) with
  | .error e => .error e
  | .ok author =>
  match pyGet post_data "uri" (.str "") with
  | .error e => .error e
  | .ok uriVal =>
  match asStr uriVal with
  | .error e => .error e
  | .ok uriStr =>
  match pyGet record "text" (.str "") with
  | .error e => .error e
  | .ok text =>
  match pyGet record "createdAt" (.str "") with
  | .error e => .error e
  | .ok created_at =>
  match pyHashtags record text with
  | .error e => .error e
  | .ok hashtags =>
  match pyGet author "displayName" .null with
  | .error e => .error e
  | .ok displayName =>
  match pyGet author "handle" (.str "") with
  | .error e => .error e
  | .ok handleVal =>
  match pyGet post_data "likeCount" (.num 0) with
  | .error e => .error e
  | .ok likes =>
  match pyGet post_data "repostCount" (.num 0) with
  | .error e => .error e
  | .ok retweets =>
  match pyGet post_data "replyCount" (.num 0) with
  | .error e => .error e
  | .ok replies =>
  match pyLangs record with
  | .error e => .error e
  | .ok language =>
  .ok
    { id := .str (pySplitLast uriStr)
      content := text
      user := if pyTruthy displayName then displayName else handleVal
      username := handleVal
      date := created_at
      likes := likes
      retweets := retweets
      replies := replies
      url := .str ("https://bsky.app/profile/" ++ pyStr handleVal ++ "/post/"
                     ++ pySplitLast uriStr)
      hashtags := hashtags
      mentions := .arr []
      language := language }

/-! ## AT-Protocol collector: feed processing and outcomes -/

/-- Accumulated state of the item loop (lines 164-211): posts yielded so
far, the `posts_skipped` counter, and whether a `TypeError` raised by the
`'post' not in feed_item_raw` membership test itself (which sits outside
the per-item `try:`) aborted the loop. -/
structure FeedAcc where
  posts : List Tweet
  skipped : Nat
  aborted : Bool

/-- The item loop.  An item without a `'post'` key is skipped silently
(line 167) without touching the skipped counter; an item whose extraction
raises increments `posts_skipped` and continues (lines 208-211); a raising
membership test aborts the loop, keeping the posts already yielded. -/
def processFeed : List JValue → FeedAcc
  | [] => ⟨[], 0, false⟩
  | item :: rest =>
    match pyContains item "post" with
    | .error _ => ⟨[], 0, true⟩
    | .ok false => processFeed rest
    | .ok true =>
      match extractPost item with
      | .error _ =>
        let acc := processFeed rest
        ⟨acc.posts, acc.skipped + 1, acc.aborted⟩
      | .ok t =>
        let acc := processFeed rest
        ⟨t :: acc.posts, acc.skipped, acc.aborted⟩

/-- Outcome of the page fetch, abstracting `httpx.get` at line 140:
a non-2xx response (`raise_for_status` throws `HTTPStatusError`), a
transport failure (`httpx.HTTPError`), or a successfully parsed JSON body. -/
inductive FetchResult where
  | httpError (status : Nat) (body : String)
  | connError
  | payload (raw : JValue)

/-- The status-specific diagnostic chosen by the `except HTTPStatusError`
handler (lines 213-225): 401 logs an authentication failure, 404 logs that
the user was not found, any other status logs the response body. -/
inductive HttpDiag where
  | authFailure
  | userNotFound
  | other (status : Nat) (body : String)

def httpDiag (status : Nat) (body : String) : HttpDiag :=
  if status = 401 then .authFailure
  else if status = 404 then .userNotFound
  else .other status body

/-- How a `get_user_posts` generator run ended.  Every constructor except
`completed` corresponds to one of the early `return` statements: all of
them end the stream silently (only a log entry distinguishes them). -/
inductive BskyOutcome where
  | completed
  | noAccessToken
  | httpStatusAbort (diag : HttpDiag)
  | httpConnAbort
  | emptyResponse
  | missingFeed
  | emptyFeed
  | processingAbort

/-- What `list(collector.get_user_posts(...))` observes: the yielded posts,
the skipped counter, and how the run ended. -/
structure BskyResult where
  posts : List Tweet
  skipped : Nat
  outcome : BskyOutcome

/-- The only exception `get_user_posts` can propagate to its caller: the
`ConnectionError` raised at line 90 before the `try:` blocks.  (The
no-token `ConnectionError` at line 137 is raised inside the inner `try:`
and is caught by the generic `except Exception` at line 231, so it ends
the stream silently instead of propagating.) -/
inductive BskyRaise where
  | notLoggedIn

/-- Body of `get_user_posts` after the login check (lines 96-251).
`hasToken` is whether an access token was resolvable from the client
session (lines 115-127). -/
def getUserPostsBody (hasToken : Bool) (fetch : FetchResult) : BskyResult :=
  if hasToken = false then ⟨[], 0, .noAccessToken⟩
  else
    match fetch with
    | .httpError status body => ⟨[], 0, .httpStatusAbort (httpDiag status body)⟩
    | .connError => ⟨[], 0, .httpConnAbort⟩
    | .payload raw =>
      if pyTruthy raw = false then ⟨[], 0, .emptyResponse⟩
      else
        match pyContains raw "feed" with
        | .error _ => ⟨[], 0, .processingAbort⟩
        | .ok false => ⟨[], 0, .missingFeed⟩
        | .ok true =>
          match pyGet raw "feed" (.arr []) with
          | .error _ => ⟨[], 0, .processingAbort⟩
          | .ok feedVal =>
            match pyIter feedVal with
            | .error _ => ⟨[], 0, .processingAbort⟩
            | .ok items =>
              if items.length = 0 then ⟨[], 0, .emptyFeed⟩
              else
                let acc := processFeed items
                ⟨acc.posts, acc.skipped,
                 if acc.aborted then .processingAbort else .completed⟩

/-- `BlueskyCollector.get_user_posts(handle, limit)` (lines 76-251).
`handle` and `limit` are only placed into the request parameters
(line 104); the response to that request is the `fetch` argument, and the
body never applies `limit` again on the client side. -/
def get_user_posts (loggedIn hasToken : Bool) (handle : String) (limit : Nat)
    (fetch : FetchResult) : Except BskyRaise BskyResult :=
  if loggedIn = false then .error .notLoggedIn
  else
    let _ := handle
    let _ := limit
    .ok (getUserPostsBody hasToken fetch)

/-- Number of posts the caller of `get_user_posts` receives. -/
def postsCount (r : Except BskyRaise BskyResult) : Nat :=
  match r with
  | .ok res => res.posts.length
  | .error _ => 0

/-- The skipped-item counter of a run (0 when the call raised). -/
def skippedCount (r : Except BskyRaise BskyResult) : Nat :=
  match r with
  | .ok res => res.skipped
  | .error _ => 0

/-- The outcome of a run, when the call did not raise. -/
def outcomeOf (r : Except BskyRaise BskyResult) : Option BskyOutcome :=
  match r with
  | .ok res => some res.outcome
  | .error _ => none

/-! ## Legacy-API (snscrape) collector
(twitter_collector.py) -/

/-- Python attribute access `v.attr` on a scraped tweet object, which we
model as a JSON object of its attributes: a missing attribute raises
`AttributeError`, as does attribute access on a non-object. -/
def pyAttr (v : JValue) (attr : String) : Except PyErr JValue :=
  match v with
  | .obj fs =>
    match jlookup fs attr with
    | some x => .ok x
    | none => .error .attributeError
  | _ => .error .attributeError

/-- `[m.username for m in (tweet_obj.mentionedUsers or [])]` (line 100). -/
def pyMentions (mentionedUsers : JValue) : Except PyErr (List JValue) :=
  if pyTruthy mentionedUsers then
    match pyIter mentionedUsers with
    | .error e => .error e
    | .ok ms => ms.mapM (fun m => pyAttr m "username")
  else .ok []

/-- `TwitterCollector._parse_tweet` (lines 79-102).  `tweet_obj.user` is
accessed twice in the source (lines 92-93); being pure it is read once
here.  Field values are copied verbatim; only `id` is stringified
(`str(tweet_obj.id)`) and the `or`-defaults of lines 95-99 applied. -/
def _parse_tweet (tweet_obj : JValue) : Except PyErr Tweet :=
  match pyAttr tweet_obj "id" with
  | .error e => .error e
  | .ok idVal =>
  match pyAttr tweet_obj "rawContent" with
  | .error e => .error e
  | .ok rawContent =>
  match pyAttr tweet_obj "user" with
  | .error e => .error e
  | .ok userObj =>
  match pyAttr userObj "displayname" with
  | .error e => .error e
  | .ok displayname =>
  match pyAttr userObj "username" with
  | .error e => .error e
  | .ok username =>
  match pyAttr tweet_obj "date" with
  | .error e => .error e
  | .ok date =>
  match pyAttr tweet_obj "likeCount" with
  | .error e => .error e
  | .ok likeCount =>
  match pyAttr tweet_obj "retweetCount" with
  | .error e => .error e
  | .ok retweetCount =>
  match pyAttr tweet_obj "replyCount" with
  | .error e => .error e
  | .ok replyCount =>
  match pyAttr tweet_obj "url" with
  | .error e => .error e
  | .ok urlVal =>
  match pyAttr tweet_obj "hashtags" with
  | .error e => .error e
  | .ok hashtagsVal =>
  match pyAttr tweet_obj "mentionedUsers" with
  | .error e => .error e
  | .ok mentionedUsers =>
  match pyMentions mentionedUsers with
  | .error e => .error e
  | .ok mentions =>
  match pyAttr tweet_obj "lang" with
  | .error e => .error e
  | .ok lang =>
  .ok
    { id := .str (pyStr idVal)
      content := rawContent
      user := displayname
      username := username
      date := date
      likes := if pyTruthy likeCount then likeCount else .num 0
      retweets := if pyTruthy retweetCount then retweetCount else .num 0
      replies := if pyTruthy replyCount then replyCount else .num 0
      url := urlVal
      hashtags := if pyTruthy hashtagsVal then hashtagsVal else .arr []
      mentions := .arr mentions
      language := lang }

/-- `if limit and count >= limit:` (line 152 / line 194): the break
condition fires only when `limit` is truthy (neither `None` nor `0`). -/
def limitReached (limit : Option Nat) (count : Nat) : Bool :=
  match limit with
  | none => false
  | some l => if l = 0 then false else decide (l ≤ count)

/-- The shared scrape loop of `search` (lines 140-157) and
`get_user_tweets` (lines 185-199): for each streamed item, parse inside a
`try:`; on success yield and increment `count`, breaking after the yield
once the limit is reached; on a parse error log and continue.  (Each
iteration also calls `_rate_limit_sleep`, modelled separately below: it
only delays, never changes which items are yielded.) -/
def collectLoop (limit : Option Nat) (count : Nat) : List JValue → List Tweet
  | [] => []
  | item :: rest =>
    match _parse_tweet item with
    | .error _ => collectLoop limit count rest
    | .ok t =>
      if limitReached limit (count + 1) then [t]
      else t :: collectLoop limit (count + 1) rest

/-- `TwitterCollector.search(query, limit, since, until)` (lines 104-163).
The query and date filters only select which items the underlying
`TwitterSearchScraper` streams; that stream is the `stream` argument. -/
def search (query : String) (limit : Option Nat) (stream : List JValue) :
    List Tweet :=
  let _ := query
  collectLoop limit 0 stream

/-- `TwitterCollector.get_user_tweets(username, limit)` (lines 165-205). -/
def get_user_tweets (username : String) (limit : Option Nat)
    (stream : List JValue) : List Tweet :=
  let _ := username
  collectLoop limit 0 stream

/-- Parse-valid items of a stream (those `_parse_tweet` accepts). -/
def validCount (stream : List JValue) : Nat :=
  stream.countP (fun i => (_parse_tweet i).isOk)

/-! ## Rate limiter
(`TwitterCollector._rate_limit_sleep`, lines 69-77) -/

/-- One `_rate_limit_sleep()` call.  `now` is the value of `time.time()` at
line 71 and `last` the stored `_last_request_time`; the function returns
the new `_last_request_time` recorded at line 77.  Sleeping is modelled as
exact: after `time.sleep(d)` the clock reads `now + d` (a real sleep can
only overshoot, which would separate grants further). -/
def _rate_limit_sleep (rate_limit : ℚ) (now last : ℚ) : ℚ :=
  let elapsed := now - last
  let sleep_time := 1 / rate_limit - elapsed
  if 0 < sleep_time then now + sleep_time else now

/-! ## Analysis store
(`UserDatabase.save_analysis`, user_db.py lines 84-123) -/

/-- One stored analysis summary.  `user_handle` is the key the store
deduplicates on (an absent or empty handle both fail the `if not handle`
guard, so the empty string stands for both); every other field of the
analysis dict is opaque to `save_analysis` and is collapsed into `body`.
(The `analyzed_at` timestamp added at line 111 lives inside that opaque
remainder.) -/
structure Analysis where
  user_handle : String
  body : String
deriving DecidableEq, Repr

/-- `UserDatabase.save_analysis(analysis, max_users=10)`: drop any stored
entry with the same handle, insert the new analysis at the front, truncate
to `max_users`.  A missing/empty handle logs a warning and leaves the
store untouched (lines 101-104). -/
def save_analysis (users : List Analysis) (analysis : Analysis)
    (max_users : Nat) : List Analysis :=
  if analysis.user_handle = "" then users
  else
    (analysis :: users.filter (fun u => u.user_handle ≠ analysis.user_handle)).take
      max_users

/-! ## Collector construction
(bluesky_collector.py lines 22-41, twitter_collector.py lines 50-67,
api/main.py lines 27-41, config/settings.py) -/

/-- The `BLUESKY_HANDLE`/`BLUESKY_PASSWORD` settings fields
(`Optional[str]`, default `None`). -/
structure BlueskySettings where
  BLUESKY_HANDLE : Option String
  BLUESKY_PASSWORD : Option String

/-- Python truthiness of an `Optional[str]` setting: `None` and `''` are
both falsy. -/
def optTruthy : Option String → Bool
  | none => false
  | some s => s != ""

/-- Errors a collector constructor can raise: the `ValueError` of
bluesky_collector.py line 32 (the spec's `ConfigurationError`), or a
re-raised login failure (line 41). -/
inductive InitError where
  | valueError
  | loginError
deriving DecidableEq, Repr

/-- The state a constructed `BlueskyCollector` carries. -/
structure BlueskyCollector where
  loggedIn : Bool
deriving DecidableEq, Repr

/-- `BlueskyCollector.__init__` (lines 22-41): raise `ValueError` when
`not (handle and password)`, then attempt the login, re-raising its
failure.  `loginSucceeds` abstracts the network login call. -/
def blueskyInit (s : BlueskySettings) (loginSucceeds : Bool) :
    Except InitError BlueskyCollector :=
  if (optTruthy s.BLUESKY_HANDLE && optTruthy s.BLUESKY_PASSWORD) = false then
    .error .valueError
  else if loginSucceeds = false then .error .loginError
  else .ok ⟨true⟩

/-- The state a constructed `TwitterCollector` carries (lines 50-67). -/
structure TwitterCollector where
  rate_limit : ℚ
  max_retries : Nat
  timeout : Nat
  _last_request_time : ℚ
deriving DecidableEq, Repr

/-- `TwitterCollector.__init__(rate_limit=1.0, max_retries=3, timeout=30)`
(lines 50-67): plain attribute assignments.  The body reads no settings and
contains no `raise`, so construction always succeeds. -/
def twitterInit (rate_limit : ℚ) (max_retries timeout : Nat) :
    Except InitError TwitterCollector :=
  .ok ⟨rate_limit, max_retries, timeout, 0⟩

/-- The four `TWITTER_*` credential settings fields (`Optional[str]`,
default `None`) declared in config/settings.py lines 27-30. -/
structure TwitterCredentials where
  TWITTER_API_KEY : Option String
  TWITTER_API_KEY_SECRET : Option String
  TWITTER_ACCESS_TOKEN : Option String
  TWITTER_ACCESS_TOKEN_SECRET : Option String

/-- Module-level collector construction in api/main.py lines 30-34:
`TwitterCollector()` with defaults, `except ValueError` giving `None`.
The credentials settings are in scope in that module but `TwitterCollector`
never reads them, which is why this function ignores `creds`. -/
def initTwitterCollectorGlobal (creds : TwitterCredentials) :
    Option TwitterCollector :=
  let _ := creds
  match twitterInit 1 3 30 with
  | .ok c => some c
  | .error _ => none

/-! ## Route-level limit handling
(`scrape_twitter_query`, api/main.py lines 141-159) -/

/-- HTTP error responses the route can produce. -/
inductive ApiErr where
  | validationError
  | serviceUnavailable
  | internalError
deriving DecidableEq, Repr

/-- `GET /api/twitter/search` (lines 141-159).  FastAPI validates the
`limit` query parameter against `ge=10, le=100` before the handler runs,
rejecting out-of-range values with a 422 validation error (it never
clamps); `none` selects the declared default `25`.  The handler then
returns 503 when the collector is absent, else collects
`list(collector.search(q, limit))`. -/
def scrape_twitter_query (collector : Option TwitterCollector) (q : String)
    (limit : Option Int) (stream : List JValue) : Except ApiErr (List Tweet) :=
  let l : Int := limit.getD 25
  if l < 10 ∨ 100 < l then .error .validationError
  else
    match collector with
    | none => .error .serviceUnavailable
    | some _ => .ok (search q (some l.toNat) stream)

/-! ## Concrete raw items, used by witnesses and counterexamples -/

/-- A well-formed raw feed item: every field the extractor reads is present
and of the shape the provider documents. -/
def bskyItemA : JValue :=
  .obj [("post", .obj
    [("uri", .str "at://did:plc:abc/app.bsky.feed.post/3kaaa"),
     ("record", .obj [("text", .str "hello world"),
                      ("createdAt", .str "2024-01-02T00:00:00Z")]),
     ("author", .obj [("handle", .str "alice.bsky.social"),
                      ("displayName", .str "Alice")]),
     ("likeCount", .num 3), ("repostCount", .num 1), ("replyCount", .num 0)])]

/-- A second well-formed raw feed item, from another author. -/
def bskyItemB : JValue :=
  .obj [("post", .obj
    [("uri", .str "at://did:plc:def/app.bsky.feed.post/3kbbb"),
     ("record", .obj [("text", .str "second post here"),
                      ("createdAt", .str "2024-01-03T00:00:00Z")]),
     ("author", .obj [("handle", .str "bob.bsky.social")]),
     ("likeCount", .num 7), ("repostCount", .num 2), ("replyCount", .num 1)])]

/-- A malformed raw feed item: its `record` is a bare string, so
`record.get('text', '')` raises `AttributeError` inside the per-item
`try:`. -/
def bskyItemBadRecord : JValue :=
  .obj [("post", .obj
    [("uri", .str "at://did:plc:ghi/app.bsky.feed.post/3kbad"),
     ("record", .str "corrupt")])]

/-- A raw feed item whose author record lacks a handle; every other field
is well-formed. -/
def bskyItemNoHandle : JValue :=
  .obj [("post", .obj
    [("uri", .str "at://did:plc:jkl/app.bsky.feed.post/3knoh"),
     ("record", .obj [("text", .str "anonymous-ish"),
                      ("createdAt", .str "2024-01-04T00:00:00Z")]),
     ("author", .obj [])])]

/-- A raw feed item that is valid except that its optional `langs` field is
present but null. -/
def bskyItemNullLangs : JValue :=
  .obj [("post", .obj
    [("uri", .str "at://did:plc:mno/app.bsky.feed.post/3klng"),
     ("record", .obj [("text", .str "multilingual"),
                      ("createdAt", .str "2024-01-05T00:00:00Z"),
                      ("langs", .null)]),
     ("author", .obj [("handle", .str "carol.bsky.social")])])]


/-- A well-formed scraped tweet object carrying every attribute
`_parse_tweet` reads.  `k` varies the id so items are distinct. -/
def rawTweet (k : Int) : JValue :=
  .obj [("id", .num k),
        ("rawContent", .str "a tweet"),
        ("user", .obj [("displayname", .str "Some User"),
                       ("username", .str "someuser")]),
        ("date", .str "2024-02-01T00:00:00Z"),
        ("likeCount", .num 5), ("retweetCount", .num 2),
        ("replyCount", .num 1),
        ("url", .str "https://twitter.com/someuser/status/1"),
        ("hashtags", .null), ("mentionedUsers", .null),
        ("lang", .str "en")]


/-- An item the extractor accepts, sitting behind a passing `'post'`
membership test. -/
def GoodItem (x : JValue) : Prop :=
  pyContains x "post" = .ok true ∧ (extractPost x).isOk = true

/-- An item that passes the `'post'` membership test but whose extraction
raises. -/
def BadItem (x : JValue) : Prop :=
  pyContains x "post" = .ok true ∧ (extractPost x).isOk = false

/-- A raw feed item in which every optional field (`likeCount`,
`repostCount`, `replyCount`, `displayName`, `tags`, `langs`) is absent and
the required fields are present with string values. -/
def mkPlainItem (uri text createdAt handle : String) : JValue :=
  .obj [("post", .obj
    [("uri", .str uri),
     ("record", .obj [("text", .str text), ("createdAt", .str createdAt)]),
     ("author", .obj [("handle", .str handle)])])]

/-! ## Helper lemmas -/

/-- With an untruthy limit (`None` or `0`) the break at line 152/194 never
fires, so the loop yields exactly the parse-valid items, in order. -/
theorem collectLoop_untruthy (limit : Option Nat)
    (h : limit = none ∨ limit = some 0) (stream : List JValue) :
    ∀ c, collectLoop limit c stream =
      stream.filterMap (fun i => (_parse_tweet i).toOption) := by
  have hlr : ∀ c, limitReached limit c = false := by
    rcases h with rfl | rfl <;> intro c <;> rfl
  induction stream with
  | nil => intro c; rfl
  | cons i rest ih =>
    intro c
    simp only [collectLoop, List.filterMap_cons]
    cases hp : _parse_tweet i with
    | error e => simp [Except.toOption, ih c]
    | ok t => simp [Except.toOption, hlr, ih (c + 1)]

theorem collectLoop_length_le (L : Nat) (stream : List JValue) :
    ∀ c, c < L → (collectLoop (some L) c stream).length ≤ L - c := by
  induction stream with
  | nil => intro c _; simp [collectLoop]
  | cons i rest ih =>
    intro c hc
    simp only [collectLoop]
    cases hp : _parse_tweet i with
    | error e => exact ih c hc
    | ok t =>
      have hL : ¬ L = 0 := by omega
      by_cases hr : L ≤ c + 1
      · simp [limitReached, hL, hr]; omega
      · have := ih (c + 1) (by omega)
        simp [limitReached, hL, hr]
        omega

theorem collectLoop_length_eq (L : Nat) (stream : List JValue) :
    ∀ c, c < L → L - c ≤ validCount stream →
      (collectLoop (some L) c stream).length = L - c := by
  induction stream with
  | nil =>
    intro c hc hv
    simp [validCount] at hv
    omega
  | cons i rest ih =>
    intro c hc hv
    simp only [collectLoop]
    cases hp : _parse_tweet i with
    | error e =>
      refine ih c hc ?_
      simpa [validCount, List.countP_cons, hp] using hv
    | ok t =>
      have hL : ¬ L = 0 := by omega
      by_cases hr : L ≤ c + 1
      · simp [limitReached, hL, hr]; omega
      · have hv' : L - (c + 1) ≤ validCount rest := by
          have hstep : validCount (i :: rest) = validCount rest + 1 := by
            simp [validCount, List.countP_cons, hp, Except.isOk, Except.toBool]
          rw [hstep] at hv
          omega
        have := ih (c + 1) (by omega) hv'
        simp [limitReached, hL, hr, this]
        omega

theorem processFeed_posts_le (items : List JValue) :
    (processFeed items).posts.length ≤ items.length := by
  induction items with
  | nil => simp [processFeed]
  | cons i rest ih =>
    simp only [processFeed]
    cases h : pyContains i "post" with
    | error e => simp
    | ok b =>
      cases b with
      | false => exact Nat.le_succ_of_le ih
      | true =>
        cases h2 : extractPost i with
        | error e => simpa using Nat.le_succ_of_le ih
        | ok t => simpa using ih

theorem processFeed_all_good (l : List JValue) (h : ∀ x ∈ l, GoodItem x) :
    (processFeed l).posts.length = l.length ∧ (processFeed l).skipped = 0 ∧
    (processFeed l).aborted = false := by
  induction l with
  | nil => simp [processFeed]
  | cons i rest ih =>
    obtain ⟨h1, h2⟩ := h i (by simp)
    obtain ⟨t, ht⟩ : ∃ t, extractPost i = .ok t := by
      cases h' : extractPost i with
      | error e => rw [h'] at h2; simp [Except.isOk, Except.toBool] at h2
      | ok t => exact ⟨t, rfl⟩
    have ih' := ih (fun x hx => h x (by simp [hx]))
    simp [processFeed, h1, ht, ih'.1, ih'.2.1, ih'.2.2]

theorem processFeed_one_bad (l₁ l₂ : List JValue) (b : JValue)
    (hg1 : ∀ x ∈ l₁, GoodItem x) (hb : BadItem b)
    (hg2 : ∀ x ∈ l₂, GoodItem x) :
    (processFeed (l₁ ++ b :: l₂)).posts.length = l₁.length + l₂.length ∧
    (processFeed (l₁ ++ b :: l₂)).skipped = 1 ∧
    (processFeed (l₁ ++ b :: l₂)).aborted = false := by
  induction l₁ with
  | nil =>
    obtain ⟨hb1, hb2⟩ := hb
    obtain ⟨e, he⟩ : ∃ e, extractPost b = .error e := by
      cases h' : extractPost b with
      | error e => exact ⟨e, rfl⟩
      | ok t => rw [h'] at hb2; simp [Except.isOk, Except.toBool] at hb2
    have h2 := processFeed_all_good l₂ hg2
    simp [processFeed, hb1, he, h2.1, h2.2.1, h2.2.2]
  | cons i rest ih =>
    obtain ⟨h1, h2⟩ := hg1 i (by simp)
    obtain ⟨t, ht⟩ : ∃ t, extractPost i = .ok t := by
      cases h' : extractPost i with
      | error e => rw [h'] at h2; simp [Except.isOk, Except.toBool] at h2
      | ok t => exact ⟨t, rfl⟩
    have ih' := ih (fun x hx => hg1 x (by simp [hx]))
    simp only [List.cons_append, processFeed, h1, ht]
    simp [ih'.1, ih'.2.1, ih'.2.2]
    omega

/-- Reduction of `getUserPostsBody` on a well-shaped non-empty page. -/
theorem getUserPostsBody_feed (items : List JValue) (hne : items ≠ []) :
    getUserPostsBody true (.payload (.obj [("feed", .arr items)])) =
      ⟨(processFeed items).posts, (processFeed items).skipped,
       if (processFeed items).aborted then .processingAbort else .completed⟩ := by
  have hlen : ¬ items.length = 0 := by
    have := List.length_pos.mpr hne
    omega
  simp [getUserPostsBody, pyTruthy, pyContains, pyGet, jlookup, pyIter, hlen]

/-! ## Claim theorems -/

/-- C7: Rate limiter spacing.  For a collector configured with
`rate_limit = 1.0`, each `_rate_limit_sleep` call records a new grant time
(`_last_request_time`) at least `1/R = 1` second after the previous one:
when the elapsed time since the last grant is below the gap it sleeps for
exactly the remainder, otherwise it records immediately.  Consecutive
grant times are therefore separated by at least one second. -/
theorem C7_rate_limiter_gap (now last : ℚ) :
    last + 1 ≤ _rate_limit_sleep 1 now last := by
  simp only [_rate_limit_sleep]
  split
  · next h => linarith [h]
  · next h =>
    rw [not_lt] at h
    norm_num at h ⊢
    linarith

/-- C10: in `TwitterCollector.search` and `get_user_tweets` the stop
condition `if limit and count >= limit:` only fires for a truthy limit, so
`limit=None` and `limit=0` both mean "no limit": every parse-valid item
the provider stream supplies is yielded. -/
theorem C10_zero_limit_means_unbounded (q username : String)
    (stream : List JValue) :
    search q none stream =
      stream.filterMap (fun i => (_parse_tweet i).toOption) ∧
    search q (some 0) stream =
      stream.filterMap (fun i => (_parse_tweet i).toOption) ∧
    get_user_tweets username none stream =
      stream.filterMap (fun i => (_parse_tweet i).toOption) ∧
    get_user_tweets username (some 0) stream =
      stream.filterMap (fun i => (_parse_tweet i).toOption) := by
  refine ⟨?_, ?_, ?_, ?_⟩ <;>
    simp [search, get_user_tweets,
      collectLoop_untruthy none (Or.inl rfl) stream,
      collectLoop_untruthy (some 0) (Or.inr rfl) stream]

/-- C9: `UserDatabase.save_analysis` keeps the stored list bounded by 10,
with the new analysis in front, no other entry sharing its handle, handles
pairwise distinct (given they were distinct before, the invariant the
store maintains from its empty initial state), and the surviving old
entries kept in order (most-recent-first).  The non-empty-handle hypothesis
reflects the guard at lines 101-104, which refuses to save an analysis
without a handle. -/
theorem C9_save_analysis_bound (users : List Analysis) (a : Analysis)
    (h1 : a.user_handle ≠ "")
    (h2 : (users.map Analysis.user_handle).Nodup) :
    (save_analysis users a 10).length ≤ 10 ∧
    (save_analysis users a 10).head? = some a ∧
    ((save_analysis users a 10).map Analysis.user_handle).Nodup ∧
    (∀ u ∈ (save_analysis users a 10).tail,
        u.user_handle ≠ a.user_handle) ∧
    List.Sublist (save_analysis users a 10).tail users := by
  unfold save_analysis
  rw [if_neg h1]
  have hfs : List.Sublist
      (users.filter (fun u => u.user_handle ≠ a.user_handle)) users :=
    List.filter_sublist users
  have htake : List.Sublist
      ((users.filter (fun u => u.user_handle ≠ a.user_handle)).take 9)
      (users.filter (fun u => u.user_handle ≠ a.user_handle)) :=
    List.take_sublist 9 _
  have hcons : (a :: users.filter
        (fun u => u.user_handle ≠ a.user_handle)).take 10 =
      a :: (users.filter (fun u => u.user_handle ≠ a.user_handle)).take 9 :=
    List.take_succ_cons
  rw [hcons]
  refine ⟨?_, rfl, ?_, ?_, htake.trans hfs⟩
  · have := List.length_take_le 9
      (users.filter (fun u => u.user_handle ≠ a.user_handle))
    simp only [List.length_cons]
    omega
  · simp only [List.map_cons, List.nodup_cons]
    constructor
    · intro hmem
      obtain ⟨u, hu, hue⟩ := List.mem_map.mp hmem
      have hu2 : u ∈ users.filter (fun v => v.user_handle ≠ a.user_handle) :=
        htake.subset hu
      have := (List.mem_filter.mp hu2).2
      simp [hue] at this
    · exact ((htake.map Analysis.user_handle).trans
        (hfs.map Analysis.user_handle)).nodup h2
  · intro u hu
    have hu2 : u ∈ users.filter (fun v => v.user_handle ≠ a.user_handle) :=
      htake.subset (by simpa using hu)
    have := (List.mem_filter.mp hu2).2
    simpa using this

/-- Witness for C9 at a concrete store state and analysis. -/
theorem C9_save_analysis_bound_witness :
    (Analysis.mk "alice" "summary-a").user_handle ≠ "" ∧
    (([⟨"bob", "summary-b"⟩] : List Analysis).map Analysis.user_handle).Nodup ∧
    ((save_analysis [⟨"bob", "summary-b"⟩] ⟨"alice", "summary-a"⟩ 10).length ≤ 10 ∧
     (save_analysis [⟨"bob", "summary-b"⟩] ⟨"alice", "summary-a"⟩ 10).head? =
       some ⟨"alice", "summary-a"⟩ ∧
     ((save_analysis [⟨"bob", "summary-b"⟩] ⟨"alice", "summary-a"⟩ 10).map
        Analysis.user_handle).Nodup ∧
     (∀ u ∈ (save_analysis [⟨"bob", "summary-b"⟩] ⟨"alice", "summary-a"⟩ 10).tail,
        u.user_handle ≠ (Analysis.mk "alice" "summary-a").user_handle) ∧
     List.Sublist
       (save_analysis [⟨"bob", "summary-b"⟩] ⟨"alice", "summary-a"⟩ 10).tail
       [⟨"bob", "summary-b"⟩]) :=
  ⟨by decide, by decide,
   C9_save_analysis_bound [⟨"bob", "summary-b"⟩] ⟨"alice", "summary-a"⟩
     (by decide) (by decide)⟩

/-- C3 counterexample: the claim says a `ConfigurationError` is raised at
construction time for both collectors whenever a required credential is
absent.  For the Legacy-API collector this is false: with all four
`TWITTER_*` credential settings absent (`None`), the module-level
construction `TwitterCollector()` in api/main.py still succeeds and
returns a collector — `TwitterCollector.__init__` reads no credentials and
contains no `raise`. -/
theorem C3_counterexample :
    initTwitterCollectorGlobal ⟨none, none, none, none⟩ =
      some ⟨1, 3, 30, 0⟩ := rfl

/-- C3 amended: the AT-Protocol collector raises its missing-credential
error (`ValueError`, the spec's `ConfigurationError`) synchronously inside
`__init__` whenever `BLUESKY_HANDLE` or `BLUESKY_PASSWORD` is absent or
empty — before any login or deferred call; the Legacy-API collector in
this repository uses an unauthenticated scraping backend, reads no
credentials, and its construction always succeeds regardless of the four
`TWITTER_*` settings. -/
theorem C3_construction_fail_fast_amended (s : BlueskySettings)
    (loginSucceeds : Bool) (creds : TwitterCredentials)
    (h : (optTruthy s.BLUESKY_HANDLE && optTruthy s.BLUESKY_PASSWORD) = false) :
    blueskyInit s loginSucceeds = .error .valueError ∧
    initTwitterCollectorGlobal creds = some ⟨1, 3, 30, 0⟩ := by
  constructor
  · unfold blueskyInit
    rw [if_pos h]
  · rfl

/-- Witness for C3 at concrete settings: handle absent, password set. -/
theorem C3_construction_fail_fast_amended_witness :
    (optTruthy (none : Option String) && optTruthy (some "app-password")) = false ∧
    (blueskyInit ⟨none, some "app-password"⟩ true = .error .valueError ∧
     initTwitterCollectorGlobal ⟨none, none, none, none⟩ = some ⟨1, 3, 30, 0⟩) :=
  ⟨by decide,
   C3_construction_fail_fast_amended ⟨none, some "app-password"⟩ true
     ⟨none, none, none, none⟩ (by decide)⟩

/-- C4 counterexample: the claim says `get_user_posts` on a nonexistent
handle surfaces `NotFoundError` rather than returning silently.  The code
does the opposite: a 404 page fetch is caught by the
`except httpx.HTTPStatusError` handler, which logs a user-not-found
diagnostic and `return`s — the call completes without raising, emitting
zero Posts. -/
theorem C4_counterexample :
    get_user_posts true true "nonexistent.handle" 25 (.httpError 404 "") =
      .ok ⟨[], 0, .httpStatusAbort .userNotFound⟩ := rfl

/-- C4 amended: every non-2xx page fetch ends the call silently with the
posts collected so far (zero, since the fetch precedes all yields) and a
status-specific log diagnostic — 401 logs an authentication failure,
404 logs that the handle was not found, and any other status logs the
status and response body; no `AuthenticationError`, `NotFoundError` or
`ProviderError` is raised to the caller. -/
theorem C4_http_status_mapping_amended (status : Nat) (body handle : String)
    (limit : Nat) (h1 : status ≠ 401) (h2 : status ≠ 404) :
    get_user_posts true true handle limit (.httpError status body) =
      .ok ⟨[], 0, .httpStatusAbort (.other status body)⟩ ∧
    get_user_posts true true handle limit (.httpError 401 body) =
      .ok ⟨[], 0, .httpStatusAbort .authFailure⟩ ∧
    get_user_posts true true handle limit (.httpError 404 body) =
      .ok ⟨[], 0, .httpStatusAbort .userNotFound⟩ := by
  refine ⟨?_, rfl, rfl⟩
  simp [get_user_posts, getUserPostsBody, httpDiag, h1, h2]

/-- Witness for C4 at a concrete 500 response. -/
theorem C4_http_status_mapping_amended_witness :
    (500 : Nat) ≠ 401 ∧ (500 : Nat) ≠ 404 ∧
    (get_user_posts true true "user.bsky.social" 25
        (.httpError 500 "server error") =
      .ok ⟨[], 0, .httpStatusAbort (.other 500 "server error")⟩ ∧
     get_user_posts true true "user.bsky.social" 25
        (.httpError 401 "server error") =
      .ok ⟨[], 0, .httpStatusAbort .authFailure⟩ ∧
     get_user_posts true true "user.bsky.social" 25
        (.httpError 404 "server error") =
      .ok ⟨[], 0, .httpStatusAbort .userNotFound⟩) :=
  ⟨by decide, by decide,
   C4_http_status_mapping_amended 500 "server error" "user.bsky.social" 25
     (by decide) (by decide)⟩

/-- C8 counterexample: the claim says the Legacy-API `search` clamps the
effective limit into `[10,100]` before pagination, regardless of the
caller's value.  With caller limit `2` and five parse-valid items in the
stream, a clamp to at least 10 would emit all five; the code emits
exactly 2 — no clamping happens in the collector. -/
theorem C8_counterexample :
    (search "python" (some 2)
      [rawTweet 1, rawTweet 2, rawTweet 3, rawTweet 4, rawTweet 5]).length
        = 2 := rfl

/-- C8 amended: the collector applies no clamp — `search` uses the
caller's limit exactly as given.  The `[10,100]` range lives in the HTTP
route `GET /api/twitter/search`, whose `limit` query parameter is declared
with `ge=10, le=100` (default 25): out-of-range requests are rejected with
a validation error rather than clamped, and in-range requests pass the
limit through to `search` unchanged. -/
theorem C8_route_limit_validation_amended (q : String) (stream : List JValue)
    (c : TwitterCollector) (lin lout : Int)
    (hlo : 10 ≤ lin) (hhi : lin ≤ 100) (hout : lout < 10 ∨ 100 < lout) :
    scrape_twitter_query (some c) q (some lin) stream =
      .ok (search q (some lin.toNat) stream) ∧
    scrape_twitter_query (some c) q (some lout) stream =
      .error .validationError ∧
    scrape_twitter_query (some c) q none stream =
      .ok (search q (some 25) stream) := by
  refine ⟨?_, ?_, ?_⟩
  · have hn : ¬ ((lin : Int) < 10 ∨ 100 < lin) := by omega
    simp [scrape_twitter_query, hn]
  · simp [scrape_twitter_query, hout]
  · simp [scrape_twitter_query]

/-- Witness for C8 at concrete limits 50 (in range) and 5 (out of range). -/
theorem C8_route_limit_validation_amended_witness :
    (10 : Int) ≤ 50 ∧ (50 : Int) ≤ 100 ∧ ((5 : Int) < 10 ∨ (100 : Int) < 5) ∧
    (scrape_twitter_query (some ⟨1, 3, 30, 0⟩) "python" (some 50)
        [rawTweet 1] =
      .ok (search "python" (some ((50 : Int)).toNat) [rawTweet 1]) ∧
     scrape_twitter_query (some ⟨1, 3, 30, 0⟩) "python" (some 5)
        [rawTweet 1] = .error .validationError ∧
     scrape_twitter_query (some ⟨1, 3, 30, 0⟩) "python" none [rawTweet 1] =
      .ok (search "python" (some 25) [rawTweet 1])) :=
  ⟨by decide, by decide, by decide,
   C8_route_limit_validation_amended "python" [rawTweet 1] ⟨1, 3, 30, 0⟩
     50 5 (by decide) (by decide) (by decide)⟩

/-- C1: per-item resilience of the AT-Protocol collector.  For a feed page
of N raw items in which exactly one item makes the extraction raise
(missing field, wrong type, unexpected structure) and every other item
extracts cleanly, `get_user_posts` yields N-1 Posts, the skipped counter
ends at exactly 1, and the run completes normally — the loop continues
past the malformed item instead of aborting the feed. -/
theorem C1_per_item_resilience (handle : String) (limit : Nat)
    (l₁ l₂ : List JValue) (b : JValue)
    (hg1 : ∀ x ∈ l₁, GoodItem x) (hb : BadItem b)
    (hg2 : ∀ x ∈ l₂, GoodItem x) :
    postsCount (get_user_posts true true handle limit
        (.payload (.obj [("feed", .arr (l₁ ++ b :: l₂))]))) + 1 =
      (l₁ ++ b :: l₂).length ∧
    skippedCount (get_user_posts true true handle limit
        (.payload (.obj [("feed", .arr (l₁ ++ b :: l₂))]))) = 1 ∧
    outcomeOf (get_user_posts true true handle limit
        (.payload (.obj [("feed", .arr (l₁ ++ b :: l₂))]))) =
      some .completed := by
  have hne : l₁ ++ b :: l₂ ≠ [] := by simp
  have hred := getUserPostsBody_feed (l₁ ++ b :: l₂) hne
  have hc := processFeed_one_bad l₁ l₂ b hg1 hb hg2
  simp only [get_user_posts, if_neg, Bool.true_eq_false, not_false_iff,
    if_false, postsCount, skippedCount, outcomeOf, hred]
  rw [hc.2.2]
  refine ⟨?_, hc.2.1, rfl⟩
  rw [hc.1]
  simp
  omega

/-- Witness for C1: a three-item feed whose middle item has a corrupt
`record`, between two well-formed items. -/
theorem C1_per_item_resilience_witness :
    (∀ x ∈ [bskyItemA], GoodItem x) ∧ BadItem bskyItemBadRecord ∧
    (∀ x ∈ [bskyItemB], GoodItem x) ∧
    (postsCount (get_user_posts true true "alice.bsky.social" 10
        (.payload (.obj
          [("feed", .arr ([bskyItemA] ++ bskyItemBadRecord :: [bskyItemB]))]))) + 1 =
      ([bskyItemA] ++ bskyItemBadRecord :: [bskyItemB]).length ∧
     skippedCount (get_user_posts true true "alice.bsky.social" 10
        (.payload (.obj
          [("feed", .arr ([bskyItemA] ++ bskyItemBadRecord :: [bskyItemB]))]))) = 1 ∧
     outcomeOf (get_user_posts true true "alice.bsky.social" 10
        (.payload (.obj
          [("feed", .arr ([bskyItemA] ++ bskyItemBadRecord :: [bskyItemB]))]))) =
      some .completed) := by
  have hga : ∀ x ∈ [bskyItemA], GoodItem x := by
    intro x hx
    rw [List.mem_singleton.mp hx]
    exact ⟨rfl, rfl⟩
  have hgb : ∀ x ∈ [bskyItemB], GoodItem x := by
    intro x hx
    rw [List.mem_singleton.mp hx]
    exact ⟨rfl, rfl⟩
  have hbad : BadItem bskyItemBadRecord := ⟨rfl, rfl⟩
  exact ⟨hga, hbad, hgb,
    C1_per_item_resilience "alice.bsky.social" 10 [bskyItemA] [bskyItemB]
      bskyItemBadRecord hga hbad hgb⟩

/-- C2 counterexample: the claim says every collection call emits at most
`limit` Posts.  The AT-Protocol collector never applies `limit` on the
client side (it only forwards it as a request parameter), so when the
returned page carries more items than requested — here a 2-item page for
`limit = 1` — it emits more Posts than the limit. -/
theorem C2_counterexample :
    postsCount (get_user_posts true true "alice.bsky.social" 1
      (.payload (.obj [("feed", .arr [bskyItemA, bskyItemB])]))) = 2 := rfl

/-- C2 amended: the Legacy-API collector enforces the bound client-side:
`search` and `get_user_tweets` with a positive limit L emit at most L
Posts, and exactly L when the stream holds at least L parse-valid items
(the loop breaks at the bound and requests nothing further).  The
AT-Protocol `get_user_posts` only bounds the page request: it emits every
valid item of the returned page, so its emission respects the limit
exactly when the provider's page does (`items.length ≤ limit`). -/
theorem C2_limit_bound_amended (q username handle : String)
    (L : Nat) (stream : List JValue) (limit : Nat) (items : List JValue)
    (hL : 1 ≤ L) (hpage : items.length ≤ limit) :
    (search q (some L) stream).length ≤ L ∧
    (L ≤ validCount stream → (search q (some L) stream).length = L) ∧
    (get_user_tweets username (some L) stream).length ≤ L ∧
    (L ≤ validCount stream →
      (get_user_tweets username (some L) stream).length = L) ∧
    postsCount (get_user_posts true true handle limit
      (.payload (.obj [("feed", .arr items)]))) ≤ limit := by
  have hle := collectLoop_length_le L stream 0 (by omega)
  have heq : L ≤ validCount stream →
      (collectLoop (some L) 0 stream).length = L := by
    intro hv
    have := collectLoop_length_eq L stream 0 (by omega) (by omega)
    omega
  refine ⟨by simpa [search] using hle, fun hv => by simpa [search] using heq hv,
    by simpa [get_user_tweets] using hle,
    fun hv => by simpa [get_user_tweets] using heq hv, ?_⟩
  cases items with
  | nil => simp [get_user_posts, getUserPostsBody, postsCount, pyTruthy,
      pyContains, pyGet, jlookup, pyIter]
  | cons i rest =>
    have hred := getUserPostsBody_feed (i :: rest) (by simp)
    have hple := processFeed_posts_le (i :: rest)
    simp only [get_user_posts, if_neg, Bool.true_eq_false, not_false_iff,
      if_false, postsCount, hred]
    omega

/-- Witness for C2: limit 1 on a single-valid-item stream and a one-item
page within a limit of 25. -/
theorem C2_limit_bound_amended_witness :
    1 ≤ 1 ∧ ([bskyItemA] : List JValue).length ≤ 25 ∧
    ((search "x" (some 1) [rawTweet 1]).length ≤ 1 ∧
     (1 ≤ validCount [rawTweet 1] →
       (search "x" (some 1) [rawTweet 1]).length = 1) ∧
     (get_user_tweets "someuser" (some 1) [rawTweet 1]).length ≤ 1 ∧
     (1 ≤ validCount [rawTweet 1] →
       (get_user_tweets "someuser" (some 1) [rawTweet 1]).length = 1) ∧
     postsCount (get_user_posts true true "alice.bsky.social" 25
       (.payload (.obj [("feed", .arr [bskyItemA])]))) ≤ 25) :=
  ⟨by decide, by decide,
   C2_limit_bound_amended "x" "someuser" "alice.bsky.social" 1 [rawTweet 1]
     25 [bskyItemA] (by decide) (by decide)⟩

/-- C6 counterexample: the claim says missing or null optional fields
degrade to defaults and the per-item error branch is unreachable on valid
items.  But on an otherwise fully valid item whose optional `langs` field
is present and null, `record.get('langs', [None])[0]` evaluates
`None[0]`, raising `TypeError` — the extraction raises and the item is
skipped instead of degrading to "language absent". -/
theorem C6_counterexample :
    extractPost bskyItemNullLangs = .error .typeError := rfl

/-- C6 amended: for raw items whose optional fields are *absent* (rather
than null), extraction never raises and the defaults apply: counts default
to 0, language to absent (`None`), hashtags to the `#`-tokenization of the
text (the empty list when the text has no `#`-words), and the display name
falls back to the handle.  A present-but-null optional field is not
handled: a null (or empty) `langs` value makes the extraction raise and
the item be skipped (see the counterexample). -/
theorem C6_parsing_defaults_amended (uri text createdAt handle : String) :
    extractPost (mkPlainItem uri text createdAt handle) =
      .ok { id := .str (pySplitLast uri)
            content := .str text
            user := .str handle
            username := .str handle
            date := .str createdAt
            likes := .num 0
            retweets := .num 0
            replies := .num 0
            url := .str ("https://bsky.app/profile/" ++ handle ++ "/post/"
                           ++ pySplitLast uri)
            hashtags := .arr (hashtagWords text)
            mentions := .arr []
            language := .null } := rfl

/-- C5 counterexample: the claim says id, authorHandle (`username`) and
url are non-empty for every successfully-parsed Post, including items
whose author record lacks a handle.  An item with an empty author record
parses successfully — `author.get('handle', '')` substitutes the empty
string — yielding a Post whose `username` (and `user`) is `""`. -/
theorem C5_counterexample :
    extractPost bskyItemNoHandle = .ok
      { id := .str "3knoh"
        content := .str "anonymous-ish"
        user := .str ""
        username := .str ""
        date := .str "2024-01-04T00:00:00Z"
        likes := .num 0
        retweets := .num 0
        replies := .num 0
        url := .str "https://bsky.app/profile//post/3knoh"
        hashtags := .arr []
        mentions := .arr []
        language := .null } := rfl

theorem asStr_ok (v : JValue) (s : String) (h : asStr v = .ok s) :
    v = .str s := by
  cases v <;> simp_all [asStr]

/-- C5 amended (AT-Protocol parser): for every successfully-parsed Post,
`url` is never empty (it always carries the constant permalink prefix);
`id` equals the last `/`-segment of the item's `uri` string (so it is
empty exactly when that segment is); and `username` is the author
record's `handle` value with default `""` (so it is non-empty only when
the author carries a non-empty handle).  Missing `uri` or `handle` fields
do not fail the parse — empty strings are substituted. -/
theorem C5_field_invariant_amended (item : JValue) (t : Tweet)
    (h : extractPost item = .ok t) :
    t.url ≠ .str "" ∧
    ∃ pd, pyIndex item "post" = .ok pd ∧
      (∃ uriS, pyGet pd "uri" (.str "") = .ok (.str uriS) ∧
        t.id = .str (pySplitLast uriS)) ∧
      ∃ author, pyGet pd "author" (.obj []) = .ok author ∧
        pyGet author "handle" (.str "") = .ok t.username := by
  unfold extractPost at h
  cases h1 : pyIndex item "post" with
  | error e => simp only [h1] at h; exact Except.noConfusion h
  | ok pd =>
  simp only [h1] at h
  cases h2 : pyGet pd "record" (.obj []) with
  | error e => simp only [h2] at h; exact Except.noConfusion h
  | ok record =>
  simp only [h2] at h
  cases h3 : pyGet pd "author" (.obj []) with
  | error e => simp only [h3] at h; exact Except.noConfusion h
  | ok author =>
  simp only [h3] at h
  cases h4 : pyGet pd "uri" (.str "") with
  | error e => simp only [h4] at h; exact Except.noConfusion h
  | ok uriVal =>
  simp only [h4] at h
  cases h5 : asStr uriVal with
  | error e => simp only [h5] at h; exact Except.noConfusion h
  | ok uriStr =>
  simp only [h5] at h
  cases h6 : pyGet record "text" (.str "") with
  | error e => simp only [h6] at h; exact Except.noConfusion h
  | ok text =>
  simp only [h6] at h
  cases h7 : pyGet record "createdAt" (.str "") with
  | error e => simp only [h7] at h; exact Except.noConfusion h
  | ok created_at =>
  simp only [h7] at h
  cases h8 : pyHashtags record text with
  | error e => simp only [h8] at h; exact Except.noConfusion h
  | ok hashtags =>
  simp only [h8] at h
  cases h9 : pyGet author "displayName" .null with
  | error e => simp only [h9] at h; exact Except.noConfusion h
  | ok displayName =>
  simp only [h9] at h
  cases h10 : pyGet author "handle" (.str "") with
  | error e => simp only [h10] at h; exact Except.noConfusion h
  | ok handleVal =>
  simp only [h10] at h
  cases h11 : pyGet pd "likeCount" (.num 0) with
  | error e => simp only [h11] at h; exact Except.noConfusion h
  | ok likes =>
  simp only [h11] at h
  cases h12 : pyGet pd "repostCount" (.num 0) with
  | error e => simp only [h12] at h; exact Except.noConfusion h
  | ok retweets =>
  simp only [h12] at h
  cases h13 : pyGet pd "replyCount" (.num 0) with
  | error e => simp only [h13] at h; exact Except.noConfusion h
  | ok replies =>
  simp only [h13] at h
  cases h14 : pyLangs record with
  | error e => simp only [h14] at h; exact Except.noConfusion h
  | ok language =>
  simp only [h14, Except.ok.injEq] at h
  subst h
  refine ⟨?_, pd, rfl, ⟨uriStr, ?_, rfl⟩, author, h3, h10⟩
  · intro hc
    have hs : "https://bsky.app/profile/" ++ pyStr handleVal ++ "/post/"
        ++ pySplitLast uriStr = "" := by
      injection hc
    have hlen := congrArg String.length hs
    rw [String.length_append, String.length_append,
      String.length_append] at hlen
    have hp1 : ("https://bsky.app/profile/" : String).length = 25 := rfl
    have hp2 : ("/post/" : String).length = 6 := rfl
    have hp3 : ("" : String).length = 0 := rfl
    omega
  · rw [asStr_ok uriVal uriStr h5] at h4
    exact h4

/-- Witness for C5: the first well-formed concrete item, whose handle is
`alice.bsky.social` and uri last segment `3kaaa`. -/
theorem C5_field_invariant_amended_witness :
    extractPost bskyItemA = .ok
      { id := .str "3kaaa"
        content := .str "hello world"
        user := .str "Alice"
        username := .str "alice.bsky.social"
        date := .str "2024-01-02T00:00:00Z"
        likes := .num 3
        retweets := .num 1
        replies := .num 0
        url := .str "https://bsky.app/profile/alice.bsky.social/post/3kaaa"
        hashtags := .arr []
        mentions := .arr []
        language := .null } ∧
    ({ id := .str "3kaaa"
       content := .str "hello world"
       user := .str "Alice"
       username := .str "alice.bsky.social"
       date := .str "2024-01-02T00:00:00Z"
       likes := .num 3
       retweets := .num 1
       replies := .num 0
       url := .str "https://bsky.app/profile/alice.bsky.social/post/3kaaa"
       hashtags := .arr []
       mentions := .arr []
       language := .null } : Tweet).url ≠ .str "" ∧
    ∃ pd, pyIndex bskyItemA "post" = .ok pd ∧
      (∃ uriS, pyGet pd "uri" (.str "") = .ok (.str uriS) ∧
        JValue.str "3kaaa" = .str (pySplitLast uriS)) ∧
      ∃ author, pyGet pd "author" (.obj []) = .ok author ∧
        pyGet author "handle" (.str "") = .ok (.str "alice.bsky.social") :=
  ⟨rfl, C5_field_invariant_amended bskyItemA _ rfl⟩

end Shameless
